import Mathlib

/-!
# Verification of the MessageLogger module

A shallow embedding of `src/message_logger.c` (header `include/message_logger.h`).
The module keeps process-wide state: a color pallet for message/tag categories,
a bounded `strftime`-style time-format buffer `time_fmt` of `TIME_FMT_SIZE` (50)
chars, an optional open log file, and an optional recursive mutex.  C arrays
indexed by the closed category enumerations become total functions from the
enumeration types; the raw `char[TIME_FMT_SIZE]` buffer becomes a `List Char`
of length 50 (NUL bytes modelled as `Char.ofNat 0`), which is what lets us talk
about null-termination; `FILE*`/`pthread_mutex_t*` handles become `Option`s.
Calls into libc (`fopen`, `strftime`) are modelled by their C11-documented
behaviour, as noted at each definition.
-/

namespace MessageLogger

/-- The `Color` enumeration of `message_logger.h` (16 named colors plus the
terminal-default sentinel `DFLT`). -/
inductive Color where
  | BLA | RED | GRN | YEL | BLU | MAG | CYN | WHT
  | B_BLA | B_RED | B_GRN | B_YEL | B_BLU | B_MAG | B_CYN | B_WHT
  | DFLT
deriving DecidableEq, Repr

/-- `LogFileMode` from the header: `WRITE` (truncate) or `APPEND`. -/
inductive LogFileMode where
  | WRITE
  | APPEND
deriving DecidableEq, Repr

/-- `MessageCategory` from the header. -/
inductive MessageCategory where
  | DEFAULT_MSG | ERROR_MSG | INFO_MSG | SUCCESS_MSG | WARNING_MSG
deriving DecidableEq, Repr

/-- `TagCategory` from the header. -/
inductive TagCategory where
  | CONTEXT_TAG | ERROR_TAG | INFO_TAG | SUCCESS_TAG | WARNING_TAG
deriving DecidableEq, Repr

/-- `DisplayColors`: a pair of a background and a text color. -/
structure DisplayColors where
  background_color : Color
  text_color : Color
deriving DecidableEq, Repr

/-- `LoggerColorPallet`: the two C arrays `message_colors[5]` and
`tag_colors[5]`, modelled as total functions from the category enumerations. -/
structure LoggerColorPallet where
  message_colors : MessageCategory → DisplayColors
  tag_colors : TagCategory → DisplayColors

/-- The `DEFAULT_LOGGER_MESSAGE_COLORS` initializer macro: every message
category starts with terminal-default text and background. -/
def DEFAULT_LOGGER_MESSAGE_COLORS : MessageCategory → DisplayColors
  | .DEFAULT_MSG => { text_color := .DFLT, background_color := .DFLT }
  | .ERROR_MSG => { text_color := .DFLT, background_color := .DFLT }
  | .INFO_MSG => { text_color := .DFLT, background_color := .DFLT }
  | .SUCCESS_MSG => { text_color := .DFLT, background_color := .DFLT }
  | .WARNING_MSG => { text_color := .DFLT, background_color := .DFLT }

/-- The `DEFAULT_LOGGER_TAG_COLORS` initializer macro. -/
def DEFAULT_LOGGER_TAG_COLORS : TagCategory → DisplayColors
  | .CONTEXT_TAG => { text_color := .B_WHT, background_color := .DFLT }
  | .ERROR_TAG => { text_color := .B_RED, background_color := .DFLT }
  | .INFO_TAG => { text_color := .B_BLU, background_color := .DFLT }
  | .SUCCESS_TAG => { text_color := .B_GRN, background_color := .DFLT }
  | .WARNING_TAG => { text_color := .B_YEL, background_color := .DFLT }

/-- The private constant `default_color_pallet` of `message_logger.c`. -/
def default_color_pallet : LoggerColorPallet :=
  { message_colors := DEFAULT_LOGGER_MESSAGE_COLORS,
    tag_colors := DEFAULT_LOGGER_TAG_COLORS }

/-- `TIME_FMT_SIZE` (50): the size of the `time_fmt` buffer. -/
def TIME_FMT_SIZE : Nat := 50

/-- The C NUL character. -/
def nulChar : Char := Char.ofNat 0

/-- The contents of a C `char[n]` buffer after `strncpy(buf, src, n)` (C11
7.24.2.4): at most `n` characters of `src` are copied; if `src` is shorter
than `n`, the remainder of the buffer is filled with NUL bytes; if `src` has
`n` or more characters, no NUL terminator is written.  A `char buf[n] = "lit"`
static initializer produces the same contents (trailing bytes zeroed), so this
also models the initializer of `time_fmt`. -/
def strncpy (src : String) (n : Nat) : List Char :=
  src.data.take n ++ List.replicate (n - src.data.length) nulChar

/-- A buffer is null/sentinel-terminated within its bound when it holds a NUL
byte. -/
def null_terminated (buf : List Char) : Prop := nulChar ∈ buf

instance (buf : List Char) : Decidable (null_terminated buf) := by
  unfold null_terminated; infer_instance

/-- The mode a `FILE*` was opened with (`fopen` mode `"w"` or `"a"`). -/
inductive OpenMode where
  | write_open              -- fopen(name, "w"): truncate / create fresh
  | append_open             -- fopen(name, "a"): append, creating if absent
deriving DecidableEq, Repr

/-- An open log file handle: the mode it was opened in and the current file
contents as observed through this handle. -/
structure OpenFile where
  mode : OpenMode
  content : String
deriving DecidableEq, Repr

/-- The private state of `message_logger.c`: `time_fmt` (a `char[50]` buffer),
`log_file` (a `FILE*`, `NULL` when no log sink is configured), the mutable
`logger_color_pallet`, and `logger_recursive_mutex` (a
`pthread_mutex_t*`, `NULL` until `enable_thread_safety`; when allocated we
track the recursive hold count). -/
structure LoggerState where
  time_fmt : List Char
  log_file : Option OpenFile
  message_colors : MessageCategory → DisplayColors
  tag_colors : TagCategory → DisplayColors
  mutex : Option Nat

/-- The state at program start: `time_fmt` statically initialized to
`"%H:%M:%S %d-%m-%Y"` (remaining bytes zeroed), no log file, default pallet,
no mutex. -/
def initial_logger_state : LoggerState :=
  { time_fmt := strncpy "%H:%M:%S %d-%m-%Y" TIME_FMT_SIZE,
    log_file := none,
    message_colors := DEFAULT_LOGGER_MESSAGE_COLORS,
    tag_colors := DEFAULT_LOGGER_TAG_COLORS,
    mutex := none }

/-- `copy_display_colors`: field-by-field copy of a `DisplayColors` value. -/
def copy_display_colors (origin : DisplayColors) : DisplayColors :=
  { background_color := origin.background_color,
    text_color := origin.text_color }

/-- `get_logger_msg_colors` (non-NULL destination path): copies the stored
display colors for a message category to the caller and returns 0.  (The
NULL-destination branch of the C function returns -1 without reading the
pallet; it has no counterpart once the result is returned by value.) -/
def get_logger_msg_colors (requested_category : MessageCategory)
    (s : LoggerState) : Int × DisplayColors :=
  (0, copy_display_colors (s.message_colors requested_category))

/-- `get_logger_tag_colors` (non-NULL destination path). -/
def get_logger_tag_colors (requested_category : TagCategory)
    (s : LoggerState) : Int × DisplayColors :=
  (0, copy_display_colors (s.tag_colors requested_category))

/-- `set_logger_msg_colors`: with a NULL `assigned_colors` pointer, reports an
error and returns -1 leaving the state untouched; otherwise copies the given
colors into `logger_color_pallet.message_colors[message_category]` and
returns 0. -/
def set_logger_msg_colors (message_category : MessageCategory)
    (assigned_colors : Option DisplayColors) (s : LoggerState) :
    Int × LoggerState :=
  match assigned_colors with
  | none => (-1, s)
  | some colors =>
    let updated :=
      Function.update s.message_colors message_category
        (copy_display_colors colors)
    (0, { s with message_colors := updated })

/-- `set_logger_tag_colors`: as `set_logger_msg_colors`, for the tag pallet. -/
def set_logger_tag_colors (tag_category : TagCategory)
    (assigned_colors : Option DisplayColors) (s : LoggerState) :
    Int × LoggerState :=
  match assigned_colors with
  | none => (-1, s)
  | some colors =>
    let updated :=
      Function.update s.tag_colors tag_category
        (copy_display_colors colors)
    (0, { s with tag_colors := updated })

/-- The list of all message categories, in the order of the C enumeration
(`reset_logger_colors` iterates `i = 0 .. NUM_OF_MESSAGE_CATEGORIES-1`). -/
def all_message_categories : List MessageCategory :=
  [.DEFAULT_MSG, .ERROR_MSG, .INFO_MSG, .SUCCESS_MSG, .WARNING_MSG]

/-- The list of all tag categories, in the order of the C enumeration. -/
def all_tag_categories : List TagCategory :=
  [.CONTEXT_TAG, .ERROR_TAG, .INFO_TAG, .SUCCESS_TAG, .WARNING_TAG]

/-- `reset_logger_colors`: loops over both category enumerations, copying the
corresponding `default_color_pallet` entry over each current entry. -/
def reset_logger_colors (s : LoggerState) : LoggerState :=
  { s with
    message_colors :=
      all_message_categories.foldl
        (fun acc i =>
          Function.update acc i
            (copy_display_colors (default_color_pallet.message_colors i)))
        s.message_colors,
    tag_colors :=
      all_tag_categories.foldl
        (fun acc i =>
          Function.update acc i
            (copy_display_colors (default_color_pallet.tag_colors i)))
        s.tag_colors }

/-- `get_time_format` (non-NULL destination path): `strncpy`s the stored
`time_fmt` buffer into the caller's `TimeFormat` (50 bytes copied verbatim)
and returns 0. -/
def get_time_format (s : LoggerState) : Int × List Char :=
  (0, s.time_fmt)

/-- `set_time_format`: with a NULL pointer, reports an error and returns -1;
if `strlen(new_format) > TIME_FMT_SIZE`, reports an error and returns -1
leaving `time_fmt` untouched; otherwise `strncpy`s the new format into the
50-byte `time_fmt` buffer and returns 0.  (`strlen` of the argument is the
Lean string's length; C string arguments have no interior NUL.) -/
def set_time_format (new_format : Option String) (s : LoggerState) :
    Int × LoggerState :=
  match new_format with
  | none => (-1, s)
  | some f =>
    if f.length > TIME_FMT_SIZE then
      (-1, s)
    else
      (0, { s with time_fmt := strncpy f TIME_FMT_SIZE })

/-! ## printf-style formatting

The category functions are variadic; the arguments reaching the two sinks are
a `va_list`.  We model the variadic tail as a list of typed atoms covering the
conversions the module's callers use, and `v(f)printf` as a positional pass
over the format string that consumes one atom per conversion.  `va_copy`
corresponds to re-running the pass from the head of the original list. -/

/-- One variadic argument. -/
inductive FmtArg where
  | intArg (i : Int)
  | strArg (s : String)
  | charArg (c : Char)
deriving DecidableEq, Repr

/-- Positional printf-style rendering: `%d`, `%s`, `%c` consume the next
argument, `%%` is a literal percent sign, everything else is copied verbatim.
(Mismatched conversions/arguments are undefined behaviour in C; the model
copies such characters verbatim, and no claim exercises that territory.) -/
def vformat : List Char → List FmtArg → String
  | [], _ => ""
  | '%' :: 'd' :: rest, FmtArg.intArg i :: args => toString i ++ vformat rest args
  | '%' :: 's' :: rest, FmtArg.strArg str :: args => str ++ vformat rest args
  | '%' :: 'c' :: rest, FmtArg.charArg c :: args => String.mk [c] ++ vformat rest args
  | '%' :: '%' :: rest, args => "%" ++ vformat rest args
  | c :: rest, args => String.mk [c] ++ vformat rest args

/-- `print_formatted_text`: `va_copy`s the argument list and `vprintf`s the
format with it to the terminal — a fresh pass from the head of the caller's
argument list.  Returns the text written. -/
def print_formatted_text (text_format : String) (text_args : List FmtArg) :
    String :=
  vformat text_format.data text_args

/-- `log_formatted_text_content`: `va_copy`s the argument list and `vfprintf`s
the format with it to the log file — its own fresh pass from the head of the
caller's argument list.  Returns the text written. -/
def log_formatted_text_content (text_format : String)
    (text_args : List FmtArg) : String :=
  vformat text_format.data text_args

/-! ## Terminal output

Terminal writes are a sequence of ANSI escape sequences and text pieces.  We
record them as a list of items so that escape codes and message text stay
distinguishable. -/

/-- One item written to the terminal: an ANSI escape sequence or plain text. -/
inductive TermItem where
  | ansi (code : String)
  | txt (s : String)
deriving DecidableEq, Repr

/-- The escape sequence printed by `color_text` for each `Color` (bright
colors use bold weight `1`, the rest weight `22`). -/
def color_text_code : Color → String
  | .BLA => "\x1B[22;38;5;0m"
  | .RED => "\x1B[22;38;5;1m"
  | .GRN => "\x1B[22;38;5;2m"
  | .YEL => "\x1B[22;38;5;3m"
  | .BLU => "\x1B[22;38;5;4m"
  | .MAG => "\x1B[22;38;5;5m"
  | .CYN => "\x1B[22;38;5;6m"
  | .WHT => "\x1B[22;38;5;7m"
  | .B_BLA => "\x1B[1;38;5;8m"
  | .B_RED => "\x1B[1;38;5;9m"
  | .B_GRN => "\x1B[1;38;5;10m"
  | .B_YEL => "\x1B[1;38;5;11m"
  | .B_BLU => "\x1B[1;38;5;12m"
  | .B_MAG => "\x1B[1;38;5;13m"
  | .B_CYN => "\x1B[1;38;5;14m"
  | .B_WHT => "\x1B[1;38;5;15m"
  | .DFLT => "\x1B[22;39m"

/-- The escape sequence printed by `color_background` for each `Color`. -/
def color_background_code : Color → String
  | .BLA => "\x1B[48;5;0m"
  | .RED => "\x1B[48;5;1m"
  | .GRN => "\x1B[48;5;2m"
  | .YEL => "\x1B[48;5;3m"
  | .BLU => "\x1B[48;5;4m"
  | .MAG => "\x1B[48;5;5m"
  | .CYN => "\x1B[48;5;6m"
  | .WHT => "\x1B[48;5;7m"
  | .B_BLA => "\x1B[48;5;8m"
  | .B_RED => "\x1B[48;5;9m"
  | .B_GRN => "\x1B[48;5;10m"
  | .B_YEL => "\x1B[48;5;11m"
  | .B_BLU => "\x1B[48;5;12m"
  | .B_MAG => "\x1B[48;5;13m"
  | .B_CYN => "\x1B[48;5;14m"
  | .B_WHT => "\x1B[48;5;15m"
  | .DFLT => "\x1B[49m"

/-- `clear_background_in_current_line`: prints `ESC[K`. -/
def clear_background_in_current_line : TermItem := TermItem.ansi "\x1B[K"

/-- `apply_all_default_attributes`: prints `ESC[0m`. -/
def apply_all_default_attributes : TermItem := TermItem.ansi "\x1B[0m"

/-- Terminal items produced by one `color_text(c)` call. -/
def color_text_items (c : Color) : List TermItem :=
  [TermItem.ansi (color_text_code c)]

/-- Terminal items produced by one `color_background(c)` call (the escape
sequence for the color, then the current-line background clear). -/
def color_background_items (c : Color) : List TermItem :=
  [TermItem.ansi (color_background_code c), clear_background_in_current_line]

/-- Terminal items produced by one `reset_colors()` call. -/
def reset_colors_items : List TermItem :=
  [apply_all_default_attributes, clear_background_in_current_line]

/-- `print_context`: styles with the `CONTEXT_TAG` colors and prints the
context followed by a colon and a space. -/
def print_context (s : LoggerState) (context : String) : List TermItem :=
  color_text_items (s.tag_colors .CONTEXT_TAG).text_color
  ++ color_background_items (s.tag_colors .CONTEXT_TAG).background_color
  ++ [TermItem.txt (context ++ ": ")]

/-! ## Log file writes -/

/-- `log_datetime`: formats the current wall-clock time with `strftime` using
the logger's time format and writes `"[%s] "` with the result.  The clock and
`strftime` rendering are outside the program; `ts` is the string `strftime`
produced at the moment of the call. -/
def log_datetime (ts : String) : String :=
  "[" ++ ts ++ "] "

/-- `log_message`: writes, in order, the datetime stamp, `"<context>: "` when
`msg_context` is non-NULL, `"<type> "` when `msg_type` is non-NULL, and then
the formatted message contents via `log_formatted_text_content`.  No newline
is appended by the logger; a newline appears only if the format string
contains one.  Returns the text appended to the file. -/
def log_message (ts : String) (msg_context : Option String)
    (msg_type : Option String) (msg_format : String)
    (msg_args : List FmtArg) : String :=
  log_datetime ts
  ++ (match msg_context with
      | some c => c ++ ": "
      | none => "")
  ++ (match msg_type with
      | some t => t ++ " "
      | none => "")
  ++ log_formatted_text_content msg_format msg_args

/-! ## The Message Emitter entry points

Each category function acquires the lock when enabled, prints the context (if
non-NULL), for tagged categories the tag, then the formatted body, resets the
terminal colors, and — when a log file is configured — writes the parallel
line via `log_message`.  The lock bracketing has no effect on the per-call
output, so the emitters below return the output of one call: the terminal item
sequence and the text appended to the log file (`none` when no log file is
configured). -/

/-- The output of one category-function call. -/
structure EmitResult where
  terminal : List TermItem
  file_append : Option String
deriving DecidableEq, Repr

/-- `message`: plain message, no tag, `DEFAULT_MSG` body colors; logs with a
NULL `msg_type`. -/
def message_emit (s : LoggerState) (ts : String) (context : Option String)
    (format : String) (args : List FmtArg) : EmitResult :=
  { terminal :=
      (match context with
       | some c => print_context s c
       | none => [])
      ++ color_text_items (s.message_colors .DEFAULT_MSG).text_color
      ++ color_background_items (s.message_colors .DEFAULT_MSG).background_color
      ++ [TermItem.txt (print_formatted_text format args)]
      ++ reset_colors_items,
    file_append :=
      match s.log_file with
      | some _ => some (log_message ts context none format args)
      | none => none }

/-- `success`: `"(Success)"` tag with `SUCCESS_TAG` colors, `SUCCESS_MSG` body
colors. -/
def success_emit (s : LoggerState) (ts : String) (context : Option String)
    (format : String) (args : List FmtArg) : EmitResult :=
  { terminal :=
      (match context with
       | some c => print_context s c
       | none => [])
      ++ color_text_items (s.tag_colors .SUCCESS_TAG).text_color
      ++ color_background_items (s.tag_colors .SUCCESS_TAG).background_color
      ++ [TermItem.txt "(Success) "]
      ++ color_text_items (s.message_colors .SUCCESS_MSG).text_color
      ++ color_background_items (s.message_colors .SUCCESS_MSG).background_color
      ++ [TermItem.txt (print_formatted_text format args)]
      ++ reset_colors_items,
    file_append :=
      match s.log_file with
      | some _ => some (log_message ts context (some "(Success)") format args)
      | none => none }

/-- `warning`: `"(Warning)"` tag with `WARNING_TAG` colors, `WARNING_MSG` body
colors. -/
def warning_emit (s : LoggerState) (ts : String) (context : Option String)
    (format : String) (args : List FmtArg) : EmitResult :=
  { terminal :=
      (match context with
       | some c => print_context s c
       | none => [])
      ++ color_text_items (s.tag_colors .WARNING_TAG).text_color
      ++ color_background_items (s.tag_colors .WARNING_TAG).background_color
      ++ [TermItem.txt "(Warning) "]
      ++ color_text_items (s.message_colors .WARNING_MSG).text_color
      ++ color_background_items (s.message_colors .WARNING_MSG).background_color
      ++ [TermItem.txt (print_formatted_text format args)]
      ++ reset_colors_items,
    file_append :=
      match s.log_file with
      | some _ => some (log_message ts context (some "(Warning)") format args)
      | none => none }

/-- `error`: `"(Error)"` tag with `ERROR_TAG` colors, `ERROR_MSG` body
colors. -/
def error_emit (s : LoggerState) (ts : String) (context : Option String)
    (format : String) (args : List FmtArg) : EmitResult :=
  { terminal :=
      (match context with
       | some c => print_context s c
       | none => [])
      ++ color_text_items (s.tag_colors .ERROR_TAG).text_color
      ++ color_background_items (s.tag_colors .ERROR_TAG).background_color
      ++ [TermItem.txt "(Error) "]
      ++ color_text_items (s.message_colors .ERROR_MSG).text_color
      ++ color_background_items (s.message_colors .ERROR_MSG).background_color
      ++ [TermItem.txt (print_formatted_text format args)]
      ++ reset_colors_items,
    file_append :=
      match s.log_file with
      | some _ => some (log_message ts context (some "(Error)") format args)
      | none => none }

/-- `info`: `"(Info)"` tag with `INFO_TAG` colors, `INFO_MSG` body colors. -/
def info_emit (s : LoggerState) (ts : String) (context : Option String)
    (format : String) (args : List FmtArg) : EmitResult :=
  { terminal :=
      (match context with
       | some c => print_context s c
       | none => [])
      ++ color_text_items (s.tag_colors .INFO_TAG).text_color
      ++ color_background_items (s.tag_colors .INFO_TAG).background_color
      ++ [TermItem.txt "(Info) "]
      ++ color_text_items (s.message_colors .INFO_MSG).text_color
      ++ color_background_items (s.message_colors .INFO_MSG).background_color
      ++ [TermItem.txt (print_formatted_text format args)]
      ++ reset_colors_items,
    file_append :=
      match s.log_file with
      | some _ => some (log_message ts context (some "(Info)") format args)
      | none => none }

/-- Apply a category call's file output to the state: when a log file is open
and text was produced for it, the text is appended to the file contents. -/
def apply_file_append (s : LoggerState) (a : Option String) : LoggerState :=
  match s.log_file, a with
  | some f, some str =>
    { s with log_file := some { f with content := f.content ++ str } }
  | _, _ => s

/-! ## Emissions through the Message Emitter

`configure_log_file` and `lock/unlock_logger_recursive_mutex` report problems
by calling the module's own `warning`/`error` entry points.  For the claims we
track which emitter path was taken, the context and the body text of each such
internal call (at each of these call sites no log file is open or the text
goes to the terminal sink, whose rendering is covered by the emitters
above). -/

/-- Which emitter entry point an internal report went through. -/
inductive MsgLevel where
  | warningLvl
  | errorLvl
deriving DecidableEq, Repr

/-- One internal report through the Message Emitter. -/
structure Emission where
  level : MsgLevel
  context : Option String
  body : String
deriving DecidableEq, Repr

/-- The `warning` call in `configure_log_file`'s `APPEND` branch. -/
def append_fallback_warning : Emission :=
  { level := .warningLvl, context := some "Logger module",
    body := "Could not find log file! Defaulting to write mode!\n" }

/-- The `error` call at the end of `configure_log_file`. -/
def create_failure_error : Emission :=
  { level := .errorLvl, context := some "Logger module",
    body := "Could not create log file! Please check your system.\n" }

/-- The `warning` call in `lock_logger_recursive_mutex` and
`unlock_logger_recursive_mutex` when no mutex is configured. -/
def mutex_usage_warning : Emission :=
  { level := .warningLvl, context := some "Logger module",
    body := "Enable thread safety to access the logger recursive mutex." }

/-! ## The Log Sink Manager -/

/-- What the file system holds at the path given to `configure_log_file`.  The
path names either no file in a directory where one can be created, an existing
file (with its current contents) that can be opened, or a location where
opening fails in any mode (e.g. permission denied). -/
inductive PathStatus where
  | absent_creatable
  | present_writable (content : String)
  | inaccessible
deriving DecidableEq, Repr

/-- `fopen`, per C11 7.21.5.3: mode `"a"` opens **or creates** the file for
writing at end-of-file; mode `"w"` truncates the file to zero length or
creates it.  Either call fails (returns `NULL`) when the file cannot be opened
at all, e.g. for lack of permissions. -/
def fopen : PathStatus → LogFileMode → Option OpenFile
  | .inaccessible, _ => none
  | .absent_creatable, .APPEND => some { mode := .append_open, content := "" }
  | .absent_creatable, .WRITE => some { mode := .write_open, content := "" }
  | .present_writable c, .APPEND => some { mode := .append_open, content := c }
  | .present_writable _, .WRITE => some { mode := .write_open, content := "" }

/-- The outcome of one `configure_log_file` call: the C return value, the
state after the call, the reports made through the Message Emitter during the
call, and the handles `fclose`d by the call. -/
structure ConfigureResult where
  ret : Int
  state : LoggerState
  emitted : List Emission
  closed : List OpenFile

/-- `configure_log_file`: closes any previously open log file first, then
opens the path in the requested mode.  In `APPEND` mode, if `fopen(name, "a")`
returns `NULL`, warns (`append_fallback_warning`) and retries with
`fopen(name, "w")`.  If in the end no file was opened, reports
`create_failure_error` and returns -1 with no log sink configured; otherwise
returns 0. -/
def configure_log_file (path : PathStatus) (file_mode : LogFileMode)
    (s : LoggerState) : ConfigureResult :=
  let closedFiles := s.log_file.toList
  let s1 : LoggerState := { s with log_file := none }
  match file_mode with
  | .APPEND =>
    match fopen path .APPEND with
    | some f =>
      { ret := 0, state := { s1 with log_file := some f },
        emitted := [], closed := closedFiles }
    | none =>
      match fopen path .WRITE with
      | some f =>
        { ret := 0, state := { s1 with log_file := some f },
          emitted := [append_fallback_warning], closed := closedFiles }
      | none =>
        { ret := -1, state := s1,
          emitted := [append_fallback_warning, create_failure_error],
          closed := closedFiles }
  | .WRITE =>
    match fopen path .WRITE with
    | some f =>
      { ret := 0, state := { s1 with log_file := some f },
        emitted := [], closed := closedFiles }
    | none =>
      { ret := -1, state := s1,
        emitted := [create_failure_error], closed := closedFiles }

/-! ## The Concurrency Guard -/

/-- `enable_thread_safety`: allocates and initializes the recursive mutex and
returns 0.  (The `malloc`-failure branch returning -1 depends on the
allocator, outside the program; no claim exercises it.) -/
def enable_thread_safety (s : LoggerState) : Int × LoggerState :=
  (0, { s with mutex := some 0 })

/-- `lock_logger_recursive_mutex`: when the mutex is configured, locks it
(raising the recursive hold count); otherwise leaves the state untouched and
warns through the Message Emitter. -/
def lock_logger_recursive_mutex (s : LoggerState) :
    LoggerState × List Emission :=
  match s.mutex with
  | some n => ({ s with mutex := some (n + 1) }, [])
  | none => (s, [mutex_usage_warning])

/-- `unlock_logger_recursive_mutex`: when the mutex is configured, unlocks it
(lowering the recursive hold count); otherwise leaves the state untouched and
warns through the Message Emitter. -/
def unlock_logger_recursive_mutex (s : LoggerState) :
    LoggerState × List Emission :=
  match s.mutex with
  | some n => ({ s with mutex := some (n - 1) }, [])
  | none => (s, [mutex_usage_warning])

/-- `logger_module_clean_up`: closes the log file if one is open and destroys
and frees the mutex if one was allocated. -/
def logger_module_clean_up (s : LoggerState) : LoggerState :=
  { s with log_file := none, mutex := none }

/-! ## The concrete log-file scenario

`configure_log_file("t.log", WRITE)` on a fresh path, then
`success("Init", "Started at %d", 100)`, then `logger_module_clean_up()`.
The final on-disk contents of `t.log` are the contents held by the handle at
the moment `clean_up` closes it. -/

/-- The contents of `t.log` after the concrete scenario, given the `strftime`
rendering `ts` of the wall-clock time at the `success` call. -/
def scenario_log_content (ts : String) : Option String :=
  let r1 := configure_log_file .absent_creatable .WRITE initial_logger_state
  let e := success_emit r1.state ts (some "Init") "Started at %d"
    [FmtArg.intArg 100]
  let s2 := apply_file_append r1.state e.file_append
  match s2.log_file with
  | some f => some f.content
  | none => none

/-- The `"<context>: "` portion of a log-file line: present exactly when the
context argument is non-NULL. -/
def context_file_text : Option String → String
  | some c => c ++ ": "
  | none => ""

end MessageLogger


section Theorems

open MessageLogger

/-- `copy_display_colors` is the identity on `DisplayColors` values. -/
theorem copy_display_colors_id (o : DisplayColors) : copy_display_colors o = o :=
  rfl

/-- C1: with a log file configured, every category function renders the
message body once per sink from the same template and argument list — the
terminal pass (`print_formatted_text`) and the file pass
(`log_formatted_text_content`) produce the identical substituted text, the
terminal output contains exactly that text as its body item, and the file line
is the timestamp/context/tag lead followed by that same text. -/
theorem C1_dual_sink_consistency (s : LoggerState) (f : OpenFile) (ts : String)
    (ctx : Option String) (fmt : String) (args : List FmtArg) :
    print_formatted_text fmt args = log_formatted_text_content fmt args
    ∧ (message_emit { s with log_file := some f } ts ctx fmt args).file_append
        = some (log_datetime ts ++ context_file_text ctx
            ++ print_formatted_text fmt args)
    ∧ TermItem.txt (print_formatted_text fmt args)
        ∈ (message_emit { s with log_file := some f } ts ctx fmt args).terminal
    ∧ (success_emit { s with log_file := some f } ts ctx fmt args).file_append
        = some (log_datetime ts ++ context_file_text ctx ++ "(Success) "
            ++ print_formatted_text fmt args)
    ∧ TermItem.txt (print_formatted_text fmt args)
        ∈ (success_emit { s with log_file := some f } ts ctx fmt args).terminal
    ∧ (warning_emit { s with log_file := some f } ts ctx fmt args).file_append
        = some (log_datetime ts ++ context_file_text ctx ++ "(Warning) "
            ++ print_formatted_text fmt args)
    ∧ TermItem.txt (print_formatted_text fmt args)
        ∈ (warning_emit { s with log_file := some f } ts ctx fmt args).terminal
    ∧ (error_emit { s with log_file := some f } ts ctx fmt args).file_append
        = some (log_datetime ts ++ context_file_text ctx ++ "(Error) "
            ++ print_formatted_text fmt args)
    ∧ TermItem.txt (print_formatted_text fmt args)
        ∈ (error_emit { s with log_file := some f } ts ctx fmt args).terminal
    ∧ (info_emit { s with log_file := some f } ts ctx fmt args).file_append
        = some (log_datetime ts ++ context_file_text ctx ++ "(Info) "
            ++ print_formatted_text fmt args)
    ∧ TermItem.txt (print_formatted_text fmt args)
        ∈ (info_emit { s with log_file := some f } ts ctx fmt args).terminal := by
  cases ctx <;>
    refine ⟨rfl, ?_, ?_, ?_, ?_, ?_, ?_, ?_, ?_, ?_, ?_⟩ <;>
    simp [message_emit, success_emit, warning_emit, error_emit, info_emit,
      print_context, color_text_items, color_background_items,
      reset_colors_items, log_message, log_datetime, context_file_text,
      print_formatted_text, log_formatted_text_content, String.append_assoc]

/-- C2 (counterexample): in the concrete scenario the logger appends no
newline after the message — the file's last character is the digit `0` of
`100`, not a line feed, so the written line is not followed by a newline as
the claim states. -/
theorem C2_no_trailing_newline_counterexample :
    scenario_log_content "12:00:00 01-01-2026"
      = some "[12:00:00 01-01-2026] Init: (Success) Started at 100"
    ∧ ("[12:00:00 01-01-2026] Init: (Success) Started at 100").data.getLast?
        = some '0'
    ∧ ('0' : Char) ≠ '\n' := by
  decide

/-- C2 (amended): every log-file write reads
`[<timestamp>] <context>: <tag> <message>` with the `<context>: ` part omitted
for a NULL context and the `<tag> ` part omitted for plain messages (tagged
categories pass their tag text, `message` passes NULL), and with nothing
appended after the message — a newline appears only if the caller's template
contains one; in the concrete scenario `t.log` holds exactly
`[<timestamp>] Init: (Success) Started at 100`. -/
theorem C2_log_line_format_amended (ts ctx tag fmt : String)
    (args : List FmtArg) :
    log_message ts (some ctx) (some tag) fmt args
      = "[" ++ ts ++ "] " ++ ctx ++ ": " ++ tag ++ " "
        ++ log_formatted_text_content fmt args
    ∧ log_message ts none (some tag) fmt args
      = "[" ++ ts ++ "] " ++ tag ++ " "
        ++ log_formatted_text_content fmt args
    ∧ log_message ts (some ctx) none fmt args
      = "[" ++ ts ++ "] " ++ ctx ++ ": "
        ++ log_formatted_text_content fmt args
    ∧ log_message ts none none fmt args
      = "[" ++ ts ++ "] " ++ log_formatted_text_content fmt args
    ∧ (message_emit { initial_logger_state with
          log_file := some { mode := .write_open, content := "" } }
        ts (some ctx) fmt args).file_append
      = some (log_message ts (some ctx) none fmt args)
    ∧ scenario_log_content ts
      = some ("[" ++ ts ++ "] Init: (Success) Started at 100") := by
  refine ⟨?_, ?_, ?_, ?_, rfl, ?_⟩
  · simp [log_message, log_datetime, String.append_assoc]
  · simp [log_message, log_datetime, String.append_assoc]
  · simp [log_message, log_datetime, String.append_assoc]
  · simp [log_message, log_datetime, String.append_assoc]
  · simp [scenario_log_content, configure_log_file, fopen, success_emit,
      apply_file_append, log_message, log_datetime,
      log_formatted_text_content, initial_logger_state, vformat,
      String.append_assoc]
    congr 1

/-- C3: `set_time_format` (on a non-NULL argument) succeeds returning 0 iff
the argument's length is at most `TIME_FMT_SIZE` (50); on a longer argument it
returns -1 and leaves the stored time format (and all other state)
unchanged. -/
theorem C3_set_time_format_length_boundary (s : LoggerState) (f : String) :
    ((set_time_format (some f) s).1 = 0 ↔ f.length ≤ 50)
    ∧ (51 ≤ f.length → (set_time_format (some f) s).2 = s) := by
  constructor
  · by_cases h : f.length ≤ 50
    · simp [set_time_format, TIME_FMT_SIZE, Nat.not_lt.mpr h, h]
    · simp only [set_time_format, TIME_FMT_SIZE,
        if_pos (Nat.lt_of_not_le h)]
      simp [h]
  · intro h
    have h50 : 50 < f.length := by omega
    simp [set_time_format, TIME_FMT_SIZE, h50]

/-- C3 witness: a 51-character pattern is rejected with the state unchanged,
and a short pattern is accepted. -/
theorem C3_set_time_format_length_boundary_witness :
    ¬ (set_time_format (some (String.mk (List.replicate 51 'a')))
        initial_logger_state).1 = 0
    ∧ (set_time_format (some (String.mk (List.replicate 51 'a')))
        initial_logger_state).2 = initial_logger_state
    ∧ (set_time_format (some "%c") initial_logger_state).1 = 0 := by
  have h51 := C3_set_time_format_length_boundary initial_logger_state
    (String.mk (List.replicate 51 'a'))
  have hshort := C3_set_time_format_length_boundary initial_logger_state "%c"
  exact ⟨fun hc => absurd (h51.1.mp hc) (by decide), h51.2 (by decide),
    hshort.1.mpr (by decide)⟩

/-- C4 (code bug): the stored time format is meant to stay null-terminated
within its 50-byte bound, and does so initially, but `set_time_format` accepts
a pattern of length exactly 50 (the check rejects only `strlen > 50`) and
`strncpy` then fills all 50 bytes without a NUL terminator. -/
theorem C4_length50_breaks_null_termination :
    null_terminated initial_logger_state.time_fmt
    ∧ (set_time_format (some (String.mk (List.replicate 50 'a')))
        initial_logger_state).1 = 0
    ∧ ¬ null_terminated
        (set_time_format (some (String.mk (List.replicate 50 'a')))
          initial_logger_state).2.time_fmt := by
  decide

/-- C5: after `reset_logger_colors`, reading any message or tag category
returns the built-in default pallet entry for that category, whatever the
prior state (in particular whatever colors had been set before). -/
theorem C5_reset_restores_default_pallet (s : LoggerState)
    (mc : MessageCategory) (tc : TagCategory) :
    get_logger_msg_colors mc (reset_logger_colors s)
      = (0, default_color_pallet.message_colors mc)
    ∧ get_logger_tag_colors tc (reset_logger_colors s)
      = (0, default_color_pallet.tag_colors tc) := by
  cases mc <;> cases tc <;> exact ⟨rfl, rfl⟩

/-- C6: setting the colors of any message category and reading them back
yields exactly the colors that were set (both fields), and likewise for tag
categories. -/
theorem C6_color_round_trip (s : LoggerState) (mc : MessageCategory)
    (tc : TagCategory) (c : DisplayColors) :
    (get_logger_msg_colors mc (set_logger_msg_colors mc (some c) s).2).2 = c
    ∧ (get_logger_tag_colors tc (set_logger_tag_colors tc (some c) s).2).2
      = c := by
  constructor <;>
    simp [get_logger_msg_colors, set_logger_msg_colors,
      get_logger_tag_colors, set_logger_tag_colors, copy_display_colors_id]

/-- C7 (counterexample): configuring an absent-but-creatable path in `APPEND`
mode succeeds, but `fopen(name, "a")` creates the file and the handle is in
append mode — not the claimed truncate/write mode — and no warning is emitted
(the fallback branch is not taken). -/
theorem C7_append_missing_counterexample :
    (configure_log_file .absent_creatable .APPEND initial_logger_state).ret = 0
    ∧ (configure_log_file .absent_creatable .APPEND
        initial_logger_state).state.log_file
      = some { mode := OpenMode.append_open, content := "" }
    ∧ OpenMode.append_open ≠ OpenMode.write_open
    ∧ (configure_log_file .absent_creatable .APPEND
        initial_logger_state).emitted = [] := by
  refine ⟨rfl, rfl, by decide, rfl⟩

/-- C7 (amended): for a path naming no existing file (in a directory where one
can be created), `configure_log_file(path, APPEND)` succeeds and leaves the
file open in append mode, created empty, with no warning emitted; the
warn-and-fall-back-to-write branch runs only if the append-mode `fopen` itself
fails. -/
theorem C7_append_missing_amended (s : LoggerState) :
    (configure_log_file .absent_creatable .APPEND s).ret = 0
    ∧ (configure_log_file .absent_creatable .APPEND s).state.log_file
      = some { mode := OpenMode.append_open, content := "" }
    ∧ (configure_log_file .absent_creatable .APPEND s).emitted = [] :=
  ⟨rfl, rfl, rfl⟩

/-- C8: when the target path cannot be opened in either mode,
`configure_log_file` returns -1, reports through the Message Emitter's error
path, leaves the log sink unconfigured, and has closed whatever file was open
before the call. -/
theorem C8_configure_failure_reported (s : LoggerState) (m : LogFileMode) :
    (configure_log_file .inaccessible m s).ret = -1
    ∧ (configure_log_file .inaccessible m s).state.log_file = none
    ∧ create_failure_error ∈ (configure_log_file .inaccessible m s).emitted
    ∧ create_failure_error.level = MsgLevel.errorLvl
    ∧ (configure_log_file .inaccessible m s).closed = s.log_file.toList := by
  cases m <;> simp [configure_log_file, fopen, create_failure_error]

/-- C9: calling `lock_logger_recursive_mutex` or
`unlock_logger_recursive_mutex` before thread safety is enabled leaves the
logger state exactly as it was and reports a warning through the Message
Emitter's warning path. -/
theorem C9_lock_unlock_before_enable (s : LoggerState)
    (h : s.mutex = none) :
    lock_logger_recursive_mutex s = (s, [mutex_usage_warning])
    ∧ unlock_logger_recursive_mutex s = (s, [mutex_usage_warning])
    ∧ mutex_usage_warning.level = MsgLevel.warningLvl := by
  refine ⟨?_, ?_, rfl⟩ <;>
    simp [lock_logger_recursive_mutex, unlock_logger_recursive_mutex, h]

/-- C9 witness: at the initial state (thread safety never enabled) both calls
return the state unchanged together with the misuse warning. -/
theorem C9_lock_unlock_before_enable_witness :
    lock_logger_recursive_mutex initial_logger_state
      = (initial_logger_state, [mutex_usage_warning])
    ∧ unlock_logger_recursive_mutex initial_logger_state
      = (initial_logger_state, [mutex_usage_warning])
    ∧ mutex_usage_warning.level = MsgLevel.warningLvl :=
  C9_lock_unlock_before_enable initial_logger_state rfl

/-- C10: `set_logger_msg_colors` with a non-NULL colors argument returns 0 and
changes only the message-colors entry of the given category: every other
message-colors entry, the whole tag pallet, the stored time format, the log
sink handle and the mutex are unchanged. -/
theorem C10_set_msg_colors_frame (s : LoggerState) (mc : MessageCategory)
    (c : DisplayColors) :
    (set_logger_msg_colors mc (some c) s).1 = 0
    ∧ (∀ mc2 : MessageCategory, mc2 ≠ mc →
        (set_logger_msg_colors mc (some c) s).2.message_colors mc2
          = s.message_colors mc2)
    ∧ (set_logger_msg_colors mc (some c) s).2.message_colors mc = c
    ∧ (set_logger_msg_colors mc (some c) s).2.tag_colors = s.tag_colors
    ∧ (set_logger_msg_colors mc (some c) s).2.time_fmt = s.time_fmt
    ∧ (set_logger_msg_colors mc (some c) s).2.log_file = s.log_file
    ∧ (set_logger_msg_colors mc (some c) s).2.mutex = s.mutex := by
  refine ⟨rfl, ?_, ?_, rfl, rfl, rfl, rfl⟩
  · intro mc2 h
    simp [set_logger_msg_colors, Function.update_noteq h]
  · simp [set_logger_msg_colors, copy_display_colors_id]

/-- C10 witness: setting the `DEFAULT_MSG` colors at the initial state returns
0, changes that entry, and leaves the `ERROR_MSG` entry and the rest of the
state as they were. -/
theorem C10_set_msg_colors_frame_witness :
    (set_logger_msg_colors .DEFAULT_MSG
      (some { background_color := .BLU, text_color := .RED })
      initial_logger_state).1 = 0
    ∧ (set_logger_msg_colors .DEFAULT_MSG
        (some { background_color := .BLU, text_color := .RED })
        initial_logger_state).2.message_colors .ERROR_MSG
      = initial_logger_state.message_colors .ERROR_MSG
    ∧ (set_logger_msg_colors .DEFAULT_MSG
        (some { background_color := .BLU, text_color := .RED })
        initial_logger_state).2.tag_colors
      = initial_logger_state.tag_colors := by
  have h := C10_set_msg_colors_frame initial_logger_state .DEFAULT_MSG
    { background_color := .BLU, text_color := .RED }
  exact ⟨h.1, h.2.1 .ERROR_MSG (by decide), h.2.2.2.1⟩

end Theorems
